import Mathlib

/-!
Shallow embedding of the telemedicine scheduling backend (`backend/server.py`)
and proofs about its route handlers.

Modelling conventions:
- The MongoDB collections (`users`, `user_sessions`, `doctor_profiles`,
  `appointments`) are lists in insertion order; `find_one` is `List.find?`,
  `insert_one` appends, `delete_many` filters, `update_one` updates the first
  match, `find(...).to_list` is `List.filter`.
- Timestamps are integers (seconds); `datetime.now` is an explicit `now`
  parameter and `timedelta(days=7)` is `7 * 24 * 60 * 60` seconds.
- `uuid.uuid4()` is modelled as a deterministic counter-based source of fresh
  strings (`uuidOf`), threading a generator counter through mutating handlers.
- The external identity verifier (httpx call) is an explicit `VerifierResult`
  input; float fees are modelled as integers (all sample fees are integral).
- Python string operations used for header parsing (`str.startswith`,
  `str.split(' ')`) are embedded as character-list functions with the same
  semantics (split on a single-character separator keeps empty chunks).
- FastAPI `HTTPException` raising is modelled with `Except HTTPException`; the
  broad `try/except Exception` in `process_session` (which also catches the
  `HTTPException`s raised inside the `try` body, since `HTTPException`
  subclasses `Exception`) is modelled by a wrapper that replaces any error
  with the generic 500 response.
-/

structure User where
  id : String
  email : String
  name : String
  picture : String
  role : String
  created_at : Int
  deriving Repr, DecidableEq

structure UserSession where
  id : String
  user_id : String
  session_token : String
  expires_at : Int
  created_at : Int
  deriving Repr, DecidableEq

structure DoctorProfile where
  id : String
  user_id : String
  specialization : String
  experience_years : Int
  license_number : String
  bio : String
  consultation_fee : Int
  available : Bool
  created_at : Int
  deriving Repr, DecidableEq

structure Appointment where
  id : String
  patient_id : String
  doctor_id : String
  scheduled_time : Option Int
  status : String
  type : String
  video_room_id : Option String
  created_at : Int
  deriving Repr, DecidableEq

/-- The four MongoDB collections used by the server, in insertion order. -/
structure DB where
  users : List User
  user_sessions : List UserSession
  doctor_profiles : List DoctorProfile
  appointments : List Appointment
  deriving Repr, DecidableEq

/-- An incoming HTTP request, restricted to the parts the handlers read:
the `session_token` cookie and the `Authorization` header. -/
structure Request where
  cookie_session_token : Option String
  authorization : Option String
  deriving Repr, DecidableEq

structure HTTPException where
  status_code : Nat
  detail : String
  deriving Repr, DecidableEq

/-- Body of `AppointmentCreate` (request model for POST /appointments). -/
structure AppointmentCreate where
  doctor_id : String
  scheduled_time : Option Int
  type : String
  deriving Repr, DecidableEq

/-- Response of the external identity verifier
(`GET .../auth/v1/env/oauth/session-data`). -/
structure VerifierResult where
  status_code : Nat
  email : String
  name : String
  picture : String
  session_token : String
  deriving Repr, DecidableEq

/-- Deterministic model of `str(uuid.uuid4())`: the n-th fresh identifier. -/
def uuidOf (n : Nat) : String :=
  "uuid-" ++ toString n

/-- Python truthiness of an optional string: `None` and the empty string are
falsy. -/
def truthy : Option String → Bool
  | none => false
  | some s => !(s == "")

/-- Python `str.split(' ')` on character lists: split on every single space,
keeping empty chunks. -/
def splitOnSpace : List Char → List (List Char)
  | [] => [[]]
  | c :: cs =>
    match splitOnSpace cs with
    | [] => [[]]
    | r :: rs => if c = ' ' then [] :: r :: rs else (c :: r) :: rs

/-- Token extraction of `get_current_user`: the `session_token` cookie is
read first; a falsy cookie falls back to the `Authorization: Bearer <tok>`
header (`auth_header.split(' ')[1]`); a falsy final value yields `none`. -/
def tokenFromRequest (req : Request) : Option String :=
  let cookieTok := req.cookie_session_token
  let tok : Option String :=
    if truthy cookieTok then cookieTok
    else
      match req.authorization with
      | some h =>
        if List.isPrefixOf (("Bearer ").data) h.data then
          some (String.mk ((splitOnSpace h.data).getD 1 []))
        else cookieTok
      | none => cookieTok
  if truthy tok then tok else none

/-- `get_current_user`: resolve the request credential to a `User`, or `None`
when the token is absent, matches no session with `expires_at` strictly in
the future, or the session references a missing user. -/
def get_current_user (db : DB) (now : Int) (req : Request) : Option User :=
  match tokenFromRequest req with
  | none => none
  | some tok =>
    match db.user_sessions.find? (fun s => s.session_token == tok && decide (now < s.expires_at)) with
    | none => none
    | some s => db.users.find? (fun u => u.id == s.user_id)

/-- `require_auth`: 401 when `get_current_user` resolves nobody. -/
def require_auth (db : DB) (now : Int) (req : Request) : Except HTTPException User :=
  match get_current_user db now req with
  | none => Except.error ⟨401, "Authentication required"⟩
  | some u => Except.ok u

/-- `require_doctor`: `require_auth`, then 403 unless the role is doctor. -/
def require_doctor (db : DB) (now : Int) (req : Request) : Except HTTPException User :=
  match require_auth db now req with
  | Except.error e => Except.error e
  | Except.ok u =>
    if !(u.role == "doctor") then Except.error ⟨403, "Doctor access required"⟩
    else Except.ok u

/-- Outcome of a state-mutating handler that also threads the uuid counter. -/
structure SessionResp where
  db : DB
  gen : Nat
  result : Except HTTPException (User × String)
  deriving Repr

/-- Session lifetime: `timedelta(days=7)` in seconds. -/
def sessionLifetime : Int := 7 * 24 * 60 * 60

/-- Body of the `try:` block of `process_session` (POST /auth/session):
reject a falsy `session_id` with 400, a non-200 verifier status with 401;
otherwise find-or-create the user by email, delete all of the user's
sessions, insert a fresh one expiring in 7 days, and return the user
together with the token placed in the response cookie. -/
def process_session_try (db : DB) (gen : Nat) (now : Int)
    (session_id : Option String) (v : VerifierResult) : SessionResp :=
  if !(truthy session_id) then ⟨db, gen, Except.error ⟨400, "Session ID required"⟩⟩
  else if !(v.status_code == 200) then ⟨db, gen, Except.error ⟨401, "Invalid session"⟩⟩
  else
    match db.users.find? (fun u => u.email == v.email) with
    | some u =>
      let sess : UserSession := ⟨uuidOf gen, u.id, v.session_token, now + sessionLifetime, now⟩
      ⟨{ db with user_sessions := db.user_sessions.filter (fun s => !(s.user_id == u.id)) ++ [sess] },
        gen + 1, Except.ok (u, v.session_token)⟩
    | none =>
      let u : User := ⟨uuidOf gen, v.email, v.name, v.picture, "patient", now⟩
      let sess : UserSession := ⟨uuidOf (gen + 1), u.id, v.session_token, now + sessionLifetime, now⟩
      ⟨{ db with
          users := db.users ++ [u]
          user_sessions := db.user_sessions.filter (fun s => !(s.user_id == u.id)) ++ [sess] },
        gen + 2, Except.ok (u, v.session_token)⟩

/-- `process_session` as observed by the client: the surrounding
`except Exception` also catches the `HTTPException`s raised inside the `try`
body (FastAPI `HTTPException` subclasses `Exception`), so every error
surfaces as a generic 500. -/
def process_session (db : DB) (gen : Nat) (now : Int)
    (session_id : Option String) (v : VerifierResult) : SessionResp :=
  let r := process_session_try db gen now session_id v
  match r.result with
  | Except.error _ => ⟨r.db, r.gen, Except.error ⟨500, "Session processing failed"⟩⟩
  | Except.ok x => ⟨r.db, r.gen, Except.ok x⟩

/-- `logout` (POST /auth/logout): consults only the `session_token` cookie;
a truthy cookie deletes every session bearing that token; always succeeds. -/
def logout (db : DB) (req : Request) : DB × Bool :=
  match req.cookie_session_token with
  | none => (db, true)
  | some t =>
    if !(t == "") then
      ({ db with user_sessions := db.user_sessions.filter (fun s => !(s.session_token == t)) }, true)
    else (db, true)

/-- `get_doctor_profile` (GET /doctors/profile): doctor-gated; 404 when the
caller has no profile. -/
def get_doctor_profile (db : DB) (now : Int) (req : Request) : Except HTTPException DoctorProfile :=
  match require_doctor db now req with
  | Except.error e => Except.error e
  | Except.ok u =>
    match db.doctor_profiles.find? (fun p => p.user_id == u.id) with
    | none => Except.error ⟨404, "Doctor profile not found"⟩
    | some p => Except.ok p

/-- Mongo `update_one`: rewrite the first element matching the predicate. -/
def updateFirst (p : α → Bool) (f : α → α) : List α → List α
  | [] => []
  | x :: xs => if p x then f x :: xs else x :: updateFirst p f xs

/-- `update_availability` (PUT /doctors/availability): doctor-gated;
`update_one` on the caller's profile, succeeding regardless of a match. -/
def update_availability (db : DB) (now : Int) (req : Request) (available : Bool) :
    DB × Except HTTPException Bool :=
  match require_doctor db now req with
  | Except.error e => (db, Except.error e)
  | Except.ok u =>
    let setAvail : DoctorProfile → DoctorProfile := fun p => { p with available := available }
    ({ db with doctor_profiles :=
        updateFirst (fun p => p.user_id == u.id) setAvail db.doctor_profiles },
      Except.ok true)

/-- Outcome of `create_appointment`. -/
structure ApptResp where
  db : DB
  gen : Nat
  result : Except HTTPException Appointment
  deriving Repr

/-- `create_appointment` (POST /appointments): auth-gated; 404 unless an
available profile with the requested id exists; otherwise insert a pending
appointment with a fresh video room id (generated before the appointment id,
matching the evaluation order in the source). -/
def create_appointment (db : DB) (gen : Nat) (now : Int) (req : Request)
    (data : AppointmentCreate) : ApptResp :=
  match require_auth db now req with
  | Except.error e => ⟨db, gen, Except.error e⟩
  | Except.ok u =>
    match db.doctor_profiles.find? (fun p => p.id == data.doctor_id && p.available) with
    | none => ⟨db, gen, Except.error ⟨404, "Doctor not available"⟩⟩
    | some _ =>
      let appt : Appointment :=
        ⟨uuidOf (gen + 1), u.id, data.doctor_id, data.scheduled_time, "pending", data.type,
          some (uuidOf gen), now⟩
      ⟨{ db with appointments := db.appointments ++ [appt] }, gen + 2, Except.ok appt⟩

structure PatientInfo where
  name : String
  picture : String
  deriving Repr, DecidableEq

structure DoctorInfo where
  name : String
  picture : String
  specialization : String
  deriving Repr, DecidableEq

/-- An appointment record as returned by GET /appointments, with the optional
enrichment field attached by the handler. -/
structure EnrichedAppointment where
  appt : Appointment
  patient : Option PatientInfo
  doctor : Option DoctorInfo
  deriving Repr, DecidableEq

/-- Doctor-branch enrichment of `get_user_appointments`: attach the patient's
name and picture when the patient user record exists. -/
def enrichForDoctor (db : DB) (a : Appointment) : EnrichedAppointment :=
  match db.users.find? (fun u => u.id == a.patient_id) with
  | some p => ⟨a, some ⟨p.name, p.picture⟩, none⟩
  | none => ⟨a, none, none⟩

/-- Patient-branch enrichment of `get_user_appointments`: attach the doctor
user's name and picture and the profile's specialization when both lookups
succeed. -/
def enrichForPatient (db : DB) (a : Appointment) : EnrichedAppointment :=
  match db.doctor_profiles.find? (fun dp => dp.id == a.doctor_id) with
  | none => ⟨a, none, none⟩
  | some dp =>
    match db.users.find? (fun u => u.id == dp.user_id) with
    | none => ⟨a, none, none⟩
    | some du => ⟨a, none, some ⟨du.name, du.picture, dp.specialization⟩⟩

/-- `get_user_appointments` (GET /appointments): a doctor-role caller gets the
appointments whose `doctor_id` equals the caller's user id (as in the
source); any other caller gets those whose `patient_id` equals it. -/
def get_user_appointments (db : DB) (now : Int) (req : Request) :
    Except HTTPException (List EnrichedAppointment) :=
  match require_auth db now req with
  | Except.error e => Except.error e
  | Except.ok u =>
    if u.role == "doctor" then
      Except.ok ((db.appointments.filter (fun a => a.doctor_id == u.id)).map (enrichForDoctor db))
    else
      Except.ok ((db.appointments.filter (fun a => a.patient_id == u.id)).map (enrichForPatient db))

/-- `join_appointment` (GET /appointments/{id}/join): 404 for an unknown id,
403 unless the caller's user id equals the appointment's `patient_id` or its
`doctor_id` field. -/
def join_appointment (db : DB) (now : Int) (req : Request) (appointment_id : String) :
    Except HTTPException Appointment :=
  match require_auth db now req with
  | Except.error e => Except.error e
  | Except.ok u =>
    match db.appointments.find? (fun a => a.id == appointment_id) with
    | none => Except.error ⟨404, "Appointment not found"⟩
    | some a =>
      if !(a.patient_id == u.id) && !(a.doctor_id == u.id) then
        Except.error ⟨403, "Access denied"⟩
      else Except.ok a

/-- The hard-coded seeding data of POST /admin/init-sample-doctors. -/
structure SampleDoctor where
  email : String
  name : String
  picture : String
  specialization : String
  experience_years : Int
  license_number : String
  bio : String
  consultation_fee : Int
  deriving Repr, DecidableEq

def sample_doctors : List SampleDoctor :=
  [ ⟨"dr.smith@medconnect.com", "Dr. Sarah Smith",
      "https://images.unsplash.com/photo-1559839734-2b71ea197ec2?w=150&h=150&fit=crop&crop=face",
      "General Medicine", 8, "MD12345",
      "Experienced family physician specializing in rural healthcare delivery.", 75⟩,
    ⟨"dr.johnson@medconnect.com", "Dr. Michael Johnson",
      "https://images.unsplash.com/photo-1612349317150-e413f6a5b16d?w=150&h=150&fit=crop&crop=face",
      "Cardiology", 12, "MD67890",
      "Cardiologist with expertise in remote heart monitoring and consultation.", 120⟩,
    ⟨"dr.wilson@medconnect.com", "Dr. Emily Wilson",
      "https://images.unsplash.com/photo-1594824804732-ca8db3ac9421?w=150&h=150&fit=crop&crop=face",
      "Pediatrics", 6, "MD11122",
      "Pediatrician dedicated to providing quality healthcare for children in underserved areas.", 90⟩ ]

/-- One iteration of the seeding loop: skip when a user with the email
exists, otherwise insert a doctor user and its profile. -/
def seedStep (now : Int) (st : DB × Nat) (d : SampleDoctor) : DB × Nat :=
  match (st.1).users.find? (fun u => u.email == d.email) with
  | some _ => st
  | none =>
    let u : User := ⟨uuidOf st.2, d.email, d.name, d.picture, "doctor", now⟩
    let p : DoctorProfile := ⟨uuidOf (st.2 + 1), u.id, d.specialization, d.experience_years,
      d.license_number, d.bio, d.consultation_fee, true, now⟩
    ({ st.1 with
        users := (st.1).users ++ [u]
        doctor_profiles := (st.1).doctor_profiles ++ [p] }, st.2 + 2)

/-- `init_sample_doctors` (POST /admin/init-sample-doctors). -/
def init_sample_doctors (db : DB) (gen : Nat) (now : Int) : DB × Nat :=
  sample_doctors.foldl (seedStep now) (db, gen)

/-! Concrete fixtures used to evaluate the handlers at specific states. -/

/-- The empty document store. -/
def dbEmpty : DB := ⟨[], [], [], []⟩

/-- A verifier success response. -/
def vGood : VerifierResult := ⟨200, "a@b", "A", "pic", "tok-1"⟩

/-- A verifier failure response (non-200 status). -/
def vFail : VerifierResult := ⟨403, "a@b", "A", "pic", "tok-1"⟩

/-- A user with the doctor role. -/
def uDocW : User := ⟨"u1", "doc@x", "Doc D", "picD", "doctor", 0⟩

/-- A user with the patient role. -/
def uPatW : User := ⟨"u2", "pat@x", "Pat P", "picP", "patient", 0⟩

/-- The doctor profile owned by `uDocW` (profile id distinct from user id). -/
def profW : DoctorProfile := ⟨"p1", "u1", "Cardiology", 5, "MD1", "bio", 100, true, 0⟩

/-- An appointment booked by `uPatW` with the doctor profile `profW`. -/
def apptW : Appointment := ⟨"a1", "u2", "p1", none, "pending", "instant", some ("room-1"), 0⟩

/-- A live session for the doctor user `uDocW` (expires at 10). -/
def sessDocW : UserSession := ⟨"s1", "u1", "tokD", 10, 0⟩

/-- State with a doctor, a patient, the doctor's profile, and one appointment. -/
def dbJoinW : DB := ⟨[uDocW, uPatW], [sessDocW], [profW], [apptW]⟩

/-- A request authenticating as the doctor `uDocW` via cookie. -/
def reqDocW : Request := ⟨some ("tokD"), none⟩

/-- The user created by the first login of the C4 witness scenario. -/
def wU : User := ⟨"uuid-0", "a@b", "A", "pic", "patient", 100⟩

/-- Store after the first witness login (token tok-1, expiry 100 + 7 days). -/
def wDbA : DB := ⟨[wU], [⟨"uuid-1", "uuid-0", "tok-1", 604900, 100⟩], [], []⟩

/-- Store after the second witness login (token tok-2, expiry 200 + 7 days). -/
def wDbB : DB := ⟨[wU], [⟨"uuid-2", "uuid-0", "tok-2", 605000, 200⟩], [], []⟩

/-- A live session for the patient user `uPatW` (expires at 10). -/
def sessPatW : UserSession := ⟨"s2", "u2", "tokP", 10, 0⟩

/-- A doctor profile that is currently unavailable. -/
def profOffW : DoctorProfile := ⟨"p1", "u1", "Cardiology", 5, "MD1", "bio", 100, false, 0⟩

/-- State with a patient caller and one unavailable doctor profile. -/
def dbUnavailW : DB := ⟨[uPatW], [sessPatW], [profOffW], []⟩

/-- State with a patient caller and one available doctor profile. -/
def dbAvailW : DB := ⟨[uPatW], [sessPatW], [profW], []⟩

/-- A request authenticating as the patient `uPatW` via cookie. -/
def reqPatW : Request := ⟨some ("tokP"), none⟩

/-- Booking request body targeting profile p1. -/
def dataW : AppointmentCreate := ⟨"p1", none, "instant"⟩

/-- State with one session that is already expired at time 10. -/
def dbExpiredW : DB := ⟨[uPatW], [⟨"sE", "u2", "tokE", 5, 0⟩], [], []⟩

/-- State with a live session whose user record is missing (orphaned). -/
def dbOrphanW : DB := ⟨[], [⟨"sO", "uX", "tokO", 5, 0⟩], [], []⟩

/-- State with two sessions bearing distinct tokens. -/
def dbTwoSessW : DB := ⟨[], [⟨"s1", "u1", "t1", 10, 0⟩, ⟨"s2", "u2", "t2", 10, 0⟩], [], []⟩

/-- A doctor-role user with no doctor profile. -/
def uDocNoProfW : User := ⟨"u9", "d9@x", "D9", "pic9", "doctor", 0⟩

/-- State with a doctor-role caller and an empty profile collection. -/
def dbNoProfW : DB := ⟨[uDocNoProfW], [⟨"s9", "u9", "tok9", 10, 0⟩], [], []⟩

/-- A request authenticating as `uDocNoProfW` via cookie. -/
def reqNoProfW : Request := ⟨some ("tok9"), none⟩

/-! Helper lemmas. -/

theorem uuidOf_ne_empty (n : Nat) : ¬ uuidOf n = "" := by
  intro h
  have h2 : (uuidOf n).length = 0 := by rw [h]; rfl
  rw [uuidOf, String.length_append] at h2
  have h3 : ("uuid-").length = 5 := rfl
  rw [h3] at h2
  omega

theorem splitOnSpace_no_space (l : List Char) (h : ∀ c ∈ l, ¬ c = ' ') :
    splitOnSpace l = [l] := by
  induction l with
  | nil => rfl
  | cons c cs ih =>
    have hc : ¬ c = ' ' := h c (by simp)
    have ihs : splitOnSpace cs = [cs] := ih (fun x hx => h x (by simp [hx]))
    simp only [splitOnSpace, ihs]
    simp [hc]

theorem splitOnSpace_bearer (t : List Char) (h : ∀ c ∈ t, ¬ c = ' ') :
    splitOnSpace ([ 'B', 'e', 'a', 'r', 'e', 'r', ' ' ] ++ t)
      = [[ 'B', 'e', 'a', 'r', 'e', 'r' ], t] := by
  have ht : splitOnSpace t = [t] := splitOnSpace_no_space t h
  simp [splitOnSpace, ht]

theorem isPrefixOf_append (l r : List Char) : List.isPrefixOf l (l ++ r) = true := by
  rw [List.isPrefixOf_iff_prefix]
  exact List.prefix_append l r

theorem tokenFromRequest_cookie (c : String) (hdr : Option String) (hc : ¬ c = "") :
    tokenFromRequest ⟨some c, hdr⟩ = some c := by
  simp [tokenFromRequest, truthy, hc]

theorem tokenFromRequest_bearer (t : String) (hs : ∀ c ∈ t.data, ¬ c = ' ') (hne : ¬ t = "") :
    tokenFromRequest ⟨none, some (String.mk (("Bearer ").data ++ t.data))⟩ = some t := by
  obtain ⟨td⟩ := t
  have hp : List.isPrefixOf (("Bearer ").data) ((String.mk (("Bearer ").data ++ td)).data) = true :=
    isPrefixOf_append _ _
  have hsp : splitOnSpace ((String.mk (("Bearer ").data ++ td)).data)
      = [[ 'B', 'e', 'a', 'r', 'e', 'r' ], td] :=
    splitOnSpace_bearer td hs
  simp only [tokenFromRequest, truthy, hp, hsp]
  simp only [List.getD_cons_succ, List.getD_cons_zero]
  have hne2 : (String.mk td == "") = false := by
    rw [beq_eq_false_iff_ne]
    exact hne
  simp [hne2]

theorem gate_auth_none (db : DB) (now : Int) (req : Request)
    (h : tokenFromRequest req = none) :
    require_auth db now req = Except.error ⟨401, "Authentication required"⟩ := by
  simp [require_auth, get_current_user, h]

theorem gate_auth_no_session (db : DB) (now : Int) (req : Request) (t : String)
    (ht : tokenFromRequest req = some t)
    (hs : ∀ s ∈ db.user_sessions, s.session_token = t → ¬ now < s.expires_at) :
    require_auth db now req = Except.error ⟨401, "Authentication required"⟩ := by
  have hf : db.user_sessions.find?
      (fun s => s.session_token == t && decide (now < s.expires_at)) = none := by
    rw [List.find?_eq_none]
    intro x hx
    simp only [Bool.and_eq_true, beq_iff_eq, decide_eq_true_eq, not_and]
    exact hs x hx
  simp [require_auth, get_current_user, ht, hf]

theorem gate_auth_orphan (db : DB) (now : Int) (req : Request) (t : String) (s : UserSession)
    (ht : tokenFromRequest req = some t)
    (hfind : db.user_sessions.find?
      (fun x => x.session_token == t && decide (now < x.expires_at)) = some s)
    (hu : ∀ u ∈ db.users, ¬ u.id = s.user_id) :
    require_auth db now req = Except.error ⟨401, "Authentication required"⟩ := by
  have hf : db.users.find? (fun u => u.id == s.user_id) = none := by
    rw [List.find?_eq_none]
    intro x hx
    simp only [beq_iff_eq]
    exact hu x hx
  simp [require_auth, get_current_user, ht, hfind, hf]

theorem gate_wrong_role (db : DB) (now : Int) (req : Request) (u : User)
    (h : require_auth db now req = Except.ok u) (hrole : ¬ u.role = "doctor") :
    require_doctor db now req = Except.error ⟨403, "Doctor access required"⟩ := by
  simp [require_doctor, h, hrole]

theorem updateFirst_no_match (p : α → Bool) (f : α → α) (l : List α)
    (h : ∀ x ∈ l, ¬ p x = true) : updateFirst p f l = l := by
  induction l with
  | nil => rfl
  | cons x xs ih =>
    have hx : ¬ p x = true := h x (by simp)
    simp only [updateFirst, hx, if_neg]
    rw [ih (fun y hy => h y (by simp [hy]))]
    simp [hx]

theorem process_session_ok_elim (db : DB) (gen : Nat) (now : Int) (sid : Option String)
    (v : VerifierResult) (db2 : DB) (g2 : Nat) (u : User) (t : String)
    (h : process_session db gen now sid v = ⟨db2, g2, Except.ok (u, t)⟩) :
    process_session_try db gen now sid v = ⟨db2, g2, Except.ok (u, t)⟩ := by
  rcases htry : process_session_try db gen now sid v with ⟨d, g, res⟩
  cases res with
  | error e => simp [process_session, htry] at h
  | ok x =>
    simp only [process_session, htry] at h
    exact h

theorem try_ok_shape (db : DB) (gen : Nat) (now : Int) (sid : Option String) (v : VerifierResult)
    (db2 : DB) (g2 : Nat) (u : User) (t : String)
    (h : process_session_try db gen now sid v = ⟨db2, g2, Except.ok (u, t)⟩) :
    t = v.session_token
    ∧ (∃ i, db2.user_sessions =
        db.user_sessions.filter (fun s => !(s.user_id == u.id))
          ++ [⟨i, u.id, v.session_token, now + sessionLifetime, now⟩])
    ∧ ((db.users.find? (fun x => x.email == v.email) = some u ∧ db2.users = db.users)
       ∨ (db.users.find? (fun x => x.email == v.email) = none ∧ u.email = v.email
          ∧ db2.users = db.users ++ [u])) := by
  unfold process_session_try at h
  by_cases h1 : truthy sid
  case neg => simp [h1] at h
  rw [h1] at h
  by_cases h2 : v.status_code == 200
  case neg => simp [h2] at h
  rw [h2] at h
  simp only [Bool.not_true, Bool.false_eq_true, if_false] at h
  rcases hfind : db.users.find? (fun x => x.email == v.email) with _ | w
  · rw [hfind] at h
    simp only [SessionResp.mk.injEq, Except.ok.injEq, Prod.mk.injEq] at h
    obtain ⟨hdb, hg, hu, ht⟩ := h
    subst hdb
    subst hu
    refine ⟨ht.symm, ⟨uuidOf (gen + 1), by simp⟩, Or.inr ⟨hfind, rfl, by simp⟩⟩
  · rw [hfind] at h
    simp only [SessionResp.mk.injEq, Except.ok.injEq, Prod.mk.injEq] at h
    obtain ⟨hdb, hg, hu, ht⟩ := h
    subst hdb
    subst hu
    refine ⟨ht.symm, ⟨uuidOf gen, by simp⟩, Or.inl ⟨hfind, by simp⟩⟩

theorem filter_user_singleton (l : List UserSession) (uid : String) (sess : UserSession)
    (hs : sess.user_id = uid) :
    (l.filter (fun s => !(s.user_id == uid)) ++ [sess]).filter
      (fun x => x.user_id == uid) = [sess] := by
  rw [List.filter_append, List.filter_filter]
  have h1 : (l.filter fun a => a.user_id == uid && !(a.user_id == uid)) = [] := by
    rw [List.filter_eq_nil_iff]
    intro a _
    simp
  rw [h1]
  simp [hs]

theorem seedStep_skip (now : Int) (st : DB × Nat) (d : SampleDoctor)
    (h : ¬ (st.1).users.find? (fun u => u.email == d.email) = none) :
    seedStep now st d = st := by
  rcases hf : (st.1).users.find? (fun u => u.email == d.email) with _ | w
  · exact absurd hf h
  · simp [seedStep, hf]

theorem seedStep_has (now : Int) (st : DB × Nat) (d : SampleDoctor) :
    ¬ ((seedStep now st d).1).users.find? (fun u => u.email == d.email) = none := by
  rcases hf : (st.1).users.find? (fun u => u.email == d.email) with _ | w
  · simp [seedStep, hf, List.find?_append]
  · simp [seedStep, hf]

theorem seedStep_mono (now : Int) (st : DB × Nat) (d : SampleDoctor) (e : String)
    (h : ¬ (st.1).users.find? (fun u => u.email == e) = none) :
    ¬ ((seedStep now st d).1).users.find? (fun u => u.email == e) = none := by
  rcases hf : (st.1).users.find? (fun u => u.email == d.email) with _ | w
  · rcases hg : (st.1).users.find? (fun u => u.email == e) with _ | x
    · exact absurd hg h
    · simp [seedStep, hf, List.find?_append, hg]
  · simp only [seedStep, hf]
    exact h

theorem seed_foldl_mono (now : Int) (ds : List SampleDoctor) (st : DB × Nat) (e : String)
    (h : ¬ (st.1).users.find? (fun u => u.email == e) = none) :
    ¬ ((List.foldl (seedStep now) st ds).1).users.find? (fun u => u.email == e) = none := by
  induction ds generalizing st with
  | nil => exact h
  | cons x xs ih => exact ih (seedStep now st x) (seedStep_mono now st x e h)

theorem seed_foldl_has (now : Int) (ds : List SampleDoctor) (st : DB × Nat) (d : SampleDoctor)
    (hd : d ∈ ds) :
    ¬ ((List.foldl (seedStep now) st ds).1).users.find?
      (fun u => u.email == d.email) = none := by
  induction ds generalizing st with
  | nil => cases hd
  | cons x xs ih =>
    rcases List.mem_cons.mp hd with heq | hmem
    · subst heq
      exact seed_foldl_mono now xs (seedStep now st d) d.email (seedStep_has now st d)
    · exact ih (seedStep now st x) hmem

theorem seed_foldl_skip (now : Int) (ds : List SampleDoctor) (st : DB × Nat)
    (h : ∀ d ∈ ds, ¬ (st.1).users.find? (fun u => u.email == d.email) = none) :
    List.foldl (seedStep now) st ds = st := by
  induction ds with
  | nil => rfl
  | cons x xs ih =>
    rw [List.foldl_cons, seedStep_skip now st x (h x (by simp))]
    exact ih (fun d hd => h d (by simp [hd]))

/-! Claim theorems. -/

/-- C1: the spec says a login whose body lacks a session id fails with 400 and
a login the verifier rejects fails with 401. The code constructs exactly those
`HTTPException`s inside the `try` block (third and fourth conjuncts), but the
surrounding `except Exception` catches them too, so the client observes a
generic 500 in both cases (first and second conjuncts) — contradicting the
spec and the repository's own test, which expects 400 for a missing id. -/
theorem claim_C1_login_errors_become_500 :
    (∀ (db : DB) (gen : Nat) (now : Int) (v : VerifierResult),
      process_session db gen now none v
        = ⟨db, gen, Except.error ⟨500, "Session processing failed"⟩⟩)
    ∧ process_session dbEmpty 0 0 (some ("sid-1")) vFail
        = ⟨dbEmpty, 0, Except.error ⟨500, "Session processing failed"⟩⟩
    ∧ process_session_try dbEmpty 0 0 none vGood
        = ⟨dbEmpty, 0, Except.error ⟨400, "Session ID required"⟩⟩
    ∧ process_session_try dbEmpty 0 0 (some ("sid-1")) vFail
        = ⟨dbEmpty, 0, Except.error ⟨401, "Invalid session"⟩⟩ :=
  ⟨fun _ _ _ _ => rfl, rfl, rfl, rfl⟩

/-- C2: the claim says a doctor sees the appointments whose `doctor_id` equals
the doctor's profile id. In the state `dbJoinW` the authenticated doctor
`uDocW` owns profile `profW`, and exactly one appointment references that
profile id; yet the handler returns the empty list, because the source
filters appointments by `doctor_id == user.id` (the user id, not the profile
id). -/
theorem claim_C2_doctor_listing_misses_appointments :
    require_auth dbJoinW 5 reqDocW = Except.ok uDocW
    ∧ uDocW.role = "doctor"
    ∧ profW.user_id = uDocW.id
    ∧ dbJoinW.appointments.filter (fun a => a.doctor_id == profW.id) = [apptW]
    ∧ get_user_appointments dbJoinW 5 reqDocW = Except.ok [] :=
  ⟨rfl, rfl, rfl, rfl, rfl⟩

/-- C3: the claim says the doctor on the appointment (the user owning the
profile referenced by the appointment's `doctor_id`) may join. In `dbJoinW`
the appointment `apptW` references profile `profW` owned by the authenticated
caller `uDocW`, yet join is denied with 403, because the source compares the
profile-id field `doctor_id` against the caller's user id. -/
theorem claim_C3_doctor_join_denied :
    require_auth dbJoinW 5 reqDocW = Except.ok uDocW
    ∧ profW.user_id = uDocW.id
    ∧ apptW.doctor_id = profW.id
    ∧ dbJoinW.appointments.find? (fun a => a.id == ("a1")) = some apptW
    ∧ join_appointment dbJoinW 5 reqDocW ("a1") = Except.error ⟨403, "Access denied"⟩ :=
  ⟨rfl, rfl, rfl, rfl, rfl⟩

/-- C4: after every successful login the logged-in user has exactly one
session row — the just-inserted one bearing the verifier token, expiring 7
days after issuance — and after a second successful login for the same
external identity the second token is the only one stored for that user and
the first token no longer authenticates anybody (given it was fresh, i.e.
held by no pre-existing session). -/
theorem claim_C4_session_replacement (db : DB) (gen : Nat) (now1 now2 : Int)
    (sid1 sid2 : Option String) (v1 v2 : VerifierResult) (dbA dbB : DB) (gA gB : Nat)
    (u1 u2 : User) (t1 t2 : String)
    (h1 : process_session db gen now1 sid1 v1 = ⟨dbA, gA, Except.ok (u1, t1)⟩)
    (h2 : process_session dbA gA now2 sid2 v2 = ⟨dbB, gB, Except.ok (u2, t2)⟩)
    (hemail : v2.email = v1.email)
    (htok : ¬ v1.session_token = v2.session_token)
    (hfresh : ∀ s ∈ db.user_sessions, ¬ s.session_token = v1.session_token) :
    (∃ s, dbA.user_sessions.filter (fun x => x.user_id == u1.id) = [s]
      ∧ s.session_token = v1.session_token ∧ s.expires_at = now1 + 7 * 24 * 60 * 60)
    ∧ (∃ s, dbB.user_sessions.filter (fun x => x.user_id == u2.id) = [s]
      ∧ s.session_token = v2.session_token ∧ s.expires_at = now2 + 7 * 24 * 60 * 60)
    ∧ u2 = u1
    ∧ (∀ (now : Int), get_current_user dbB now ⟨some v1.session_token, none⟩ = none) := by
  obtain ⟨ht1, ⟨i1, hsessA⟩, husersA⟩ :=
    try_ok_shape db gen now1 sid1 v1 dbA gA u1 t1 (process_session_ok_elim _ _ _ _ _ _ _ _ _ h1)
  obtain ⟨ht2, ⟨i2, hsessB⟩, husersB⟩ :=
    try_ok_shape dbA gA now2 sid2 v2 dbB gB u2 t2 (process_session_ok_elim _ _ _ _ _ _ _ _ _ h2)
  have hu21 : u2 = u1 := by
    rcases husersA with ⟨hfA, hUA⟩ | ⟨hfA, heA, hUA⟩
    · rcases husersB with ⟨hfB, _⟩ | ⟨hfB, _, _⟩
      · rw [hUA, hemail, hfA] at hfB
        exact (Option.some.injEq _ _ ▸ hfB).symm
      · rw [hUA, hemail, hfA] at hfB
        simp at hfB
    · have hfind1 : dbA.users.find? (fun x => x.email == v2.email) = some u1 := by
        rw [hUA, List.find?_append, hemail, hfA]
        simp [heA]
      rcases husersB with ⟨hfB, _⟩ | ⟨hfB, _, _⟩
      · rw [hfind1] at hfB
        exact (Option.some.injEq _ _ ▸ hfB).symm
      · rw [hfind1] at hfB
        simp at hfB
  refine ⟨⟨⟨i1, u1.id, v1.session_token, now1 + sessionLifetime, now1⟩, ?_, rfl, rfl⟩,
    ⟨⟨i2, u2.id, v2.session_token, now2 + sessionLifetime, now2⟩, ?_, rfl, rfl⟩, hu21, ?_⟩
  · rw [hsessA]
    exact filter_user_singleton _ _ _ rfl
  · rw [hsessB]
    exact filter_user_singleton _ _ _ rfl
  · intro now
    by_cases hemp : v1.session_token = ""
    · simp [get_current_user, tokenFromRequest, truthy, hemp]
    · have htk : tokenFromRequest ⟨some v1.session_token, none⟩ = some v1.session_token :=
        tokenFromRequest_cookie _ _ hemp
      have hfnone : dbB.user_sessions.find?
          (fun s => s.session_token == v1.session_token && decide (now < s.expires_at)) = none := by
        rw [List.find?_eq_none]
        intro x hx
        simp only [Bool.and_eq_true, beq_iff_eq, decide_eq_true_eq, not_and]
        intro hxt
        exfalso
        rw [hsessB] at hx
        rcases List.mem_append.mp hx with hx1 | hx2
        · have hx1m := List.mem_filter.mp hx1
          rw [hsessA] at hx1m
          rcases List.mem_append.mp hx1m.1 with hy1 | hy2
          · exact hfresh x (List.mem_filter.mp hy1).1 hxt
          · have hxeq : x = ⟨i1, u1.id, v1.session_token, now1 + sessionLifetime, now1⟩ := by
              simpa using hy2
            have hin := hx1m.2
            rw [hxeq, hu21] at hin
            simp at hin
        · have hxeq : x = ⟨i2, u2.id, v2.session_token, now2 + sessionLifetime, now2⟩ := by
            simpa using hx2
          rw [hxeq] at hxt
          exact htok hxt.symm
      simp [get_current_user, htk, hfnone]

/-- C4 witness: two concrete logins for the same external identity from the
empty store, with distinct tokens tok-1 and tok-2. -/
theorem claim_C4_session_replacement_witness :
    (∃ s, wDbA.user_sessions.filter (fun x => x.user_id == wU.id) = [s]
      ∧ s.session_token = "tok-1" ∧ s.expires_at = 100 + 7 * 24 * 60 * 60)
    ∧ (∃ s, wDbB.user_sessions.filter (fun x => x.user_id == wU.id) = [s]
      ∧ s.session_token = "tok-2" ∧ s.expires_at = 200 + 7 * 24 * 60 * 60)
    ∧ wU = wU
    ∧ (∀ (now : Int), get_current_user wDbB now ⟨some ("tok-1"), none⟩ = none) :=
  claim_C4_session_replacement ⟨[], [], [], []⟩ 0 100 200 (some ("sid-a")) (some ("sid-b"))
    ⟨200, "a@b", "A", "pic", "tok-1"⟩ ⟨200, "a@b", "B", "pic2", "tok-2"⟩ wDbA wDbB 2 3 wU wU
    ("tok-1") ("tok-2") rfl rfl rfl (by decide) (by simp)

/-- C5: an authenticated booking whose doctor id matches no profile that is
available (nonexistent, or present but with available = false) yields 404 and
leaves the whole store — in particular the appointment collection —
unchanged. -/
theorem claim_C5_booking_unavailable_404 (db : DB) (gen : Nat) (now : Int) (req : Request)
    (data : AppointmentCreate) (u : User)
    (hauth : require_auth db now req = Except.ok u)
    (hdoc : ∀ p ∈ db.doctor_profiles, p.id = data.doctor_id → p.available = false) :
    create_appointment db gen now req data = ⟨db, gen, Except.error ⟨404, "Doctor not available"⟩⟩ := by
  have hf : db.doctor_profiles.find? (fun p => p.id == data.doctor_id && p.available) = none := by
    rw [List.find?_eq_none]
    intro x hx
    simp only [Bool.and_eq_true, beq_iff_eq, not_and]
    intro hid
    simp [hdoc x hx hid]
  simp [create_appointment, hauth, hf]

/-- C5 witness: a concrete authenticated booking against an unavailable
profile. -/
theorem claim_C5_booking_unavailable_404_witness :
    create_appointment dbUnavailW 0 5 reqPatW dataW
      = ⟨dbUnavailW, 0, Except.error ⟨404, "Doctor not available"⟩⟩ :=
  claim_C5_booking_unavailable_404 dbUnavailW 0 5 reqPatW dataW uPatW rfl (by decide)

/-- C6: an authenticated booking referencing an existing available profile
inserts exactly one appointment — status pending, patient_id the caller's
user id, doctor_id the requested id, and a freshly generated non-empty video
room id — and returns that same record. -/
theorem claim_C6_booking_success (db : DB) (gen : Nat) (now : Int) (req : Request)
    (data : AppointmentCreate) (u : User)
    (hauth : require_auth db now req = Except.ok u)
    (hdoc : ∃ p ∈ db.doctor_profiles, p.id = data.doctor_id ∧ p.available = true) :
    ∃ a, create_appointment db gen now req data =
        ⟨{ db with appointments := db.appointments ++ [a] }, gen + 2, Except.ok a⟩
      ∧ a.status = "pending" ∧ a.patient_id = u.id ∧ a.doctor_id = data.doctor_id
      ∧ a.video_room_id = some (uuidOf gen) ∧ ¬ uuidOf gen = "" := by
  have hne : ¬ db.doctor_profiles.find? (fun p => p.id == data.doctor_id && p.available) = none := by
    rw [List.find?_eq_none]
    push_neg
    obtain ⟨p, hp, hid, hav⟩ := hdoc
    exact ⟨p, hp, by simp [hid, hav]⟩
  rcases hq : db.doctor_profiles.find? (fun p => p.id == data.doctor_id && p.available) with _ | q
  · exact absurd hq hne
  · refine ⟨⟨uuidOf (gen + 1), u.id, data.doctor_id, data.scheduled_time, "pending", data.type,
      some (uuidOf gen), now⟩, ?_, rfl, rfl, rfl, rfl, uuidOf_ne_empty gen⟩
    simp [create_appointment, hauth, hq]

/-- C6 witness: a concrete authenticated booking against an available
profile. -/
theorem claim_C6_booking_success_witness :
    ∃ a, create_appointment dbAvailW 0 5 reqPatW dataW =
        ⟨{ dbAvailW with appointments := dbAvailW.appointments ++ [a] }, 0 + 2, Except.ok a⟩
      ∧ a.status = "pending" ∧ a.patient_id = uPatW.id ∧ a.doctor_id = dataW.doctor_id
      ∧ a.video_room_id = some (uuidOf 0) ∧ ¬ uuidOf 0 = "" :=
  claim_C6_booking_success dbAvailW 0 5 reqPatW dataW uPatW rfl (by decide)

/-- C7: the request gate — a request with no extractable credential gets 401;
a credential matching no session with expiry strictly in the future gets 401;
a matching session whose user record is missing gets 401; a valid credential
whose user is not a doctor gets 403 from the doctor gate; and the credential
is read from the session_token cookie first (a non-empty cookie wins
regardless of the header), falling back to the Authorization Bearer
header. -/
theorem claim_C7_request_gate :
    (∀ (db : DB) (now : Int) (req : Request), tokenFromRequest req = none →
      require_auth db now req = Except.error ⟨401, "Authentication required"⟩)
    ∧ (∀ (db : DB) (now : Int) (req : Request) (t : String), tokenFromRequest req = some t →
      (∀ s ∈ db.user_sessions, s.session_token = t → ¬ now < s.expires_at) →
      require_auth db now req = Except.error ⟨401, "Authentication required"⟩)
    ∧ (∀ (db : DB) (now : Int) (req : Request) (t : String) (s : UserSession),
      tokenFromRequest req = some t →
      db.user_sessions.find? (fun x => x.session_token == t && decide (now < x.expires_at)) = some s →
      (∀ u ∈ db.users, ¬ u.id = s.user_id) →
      require_auth db now req = Except.error ⟨401, "Authentication required"⟩)
    ∧ (∀ (db : DB) (now : Int) (req : Request) (u : User), require_auth db now req = Except.ok u →
      ¬ u.role = "doctor" → require_doctor db now req = Except.error ⟨403, "Doctor access required"⟩)
    ∧ (∀ (c : String) (hdr : Option String), ¬ c = "" → tokenFromRequest ⟨some c, hdr⟩ = some c)
    ∧ (∀ (t : String), (∀ ch ∈ t.data, ¬ ch = ' ') → ¬ t = "" →
      tokenFromRequest ⟨none, some (String.mk (("Bearer ").data ++ t.data))⟩ = some t) :=
  ⟨gate_auth_none, gate_auth_no_session, gate_auth_orphan, gate_wrong_role,
    tokenFromRequest_cookie, tokenFromRequest_bearer⟩

/-- C7 witness: concrete instances of all six gate conjuncts — no credential,
an expired token, an orphaned session, a wrong-role caller, a cookie
overriding the header, and a Bearer-header fallback. -/
theorem claim_C7_request_gate_witness :
    require_auth dbEmpty 0 ⟨none, none⟩ = Except.error ⟨401, "Authentication required"⟩
    ∧ require_auth dbExpiredW 10 ⟨some ("tokE"), none⟩
        = Except.error ⟨401, "Authentication required"⟩
    ∧ require_auth dbOrphanW 0 ⟨some ("tokO"), none⟩
        = Except.error ⟨401, "Authentication required"⟩
    ∧ require_doctor dbUnavailW 5 reqPatW = Except.error ⟨403, "Doctor access required"⟩
    ∧ tokenFromRequest ⟨some ("c1"), some ("Bearer zzz")⟩ = some ("c1")
    ∧ tokenFromRequest ⟨none, some (String.mk (("Bearer ").data ++ ("abc").data))⟩
        = some ("abc") :=
  ⟨claim_C7_request_gate.1 dbEmpty 0 ⟨none, none⟩ rfl,
    claim_C7_request_gate.2.1 dbExpiredW 10 ⟨some ("tokE"), none⟩ ("tokE") rfl (by decide),
    claim_C7_request_gate.2.2.1 dbOrphanW 0 ⟨some ("tokO"), none⟩ ("tokO")
      ⟨"sO", "uX", "tokO", 5, 0⟩ rfl rfl (by decide),
    claim_C7_request_gate.2.2.2.1 dbUnavailW 5 reqPatW uPatW rfl (by decide),
    claim_C7_request_gate.2.2.2.2.1 ("c1") (some ("Bearer zzz")) (by decide),
    claim_C7_request_gate.2.2.2.2.2 ("abc") (by decide) (by decide)⟩

/-- C8: seeding the sample doctors is idempotent keyed by email — from any
starting state, running the endpoint a second time (at any later time) leaves
the store and the id generator exactly as after the first run, so no user or
profile is duplicated for an email that already has a user. -/
theorem claim_C8_seeding_idempotent (db : DB) (gen : Nat) (now1 now2 : Int) :
    init_sample_doctors (init_sample_doctors db gen now1).1
      (init_sample_doctors db gen now1).2 now2 = init_sample_doctors db gen now1 := by
  show List.foldl (seedStep now2)
      ((init_sample_doctors db gen now1).1, (init_sample_doctors db gen now1).2) sample_doctors
    = init_sample_doctors db gen now1
  rw [Prod.mk.eta]
  apply seed_foldl_skip
  intro d hd
  exact seed_foldl_has now1 sample_doctors (db, gen) d hd

/-- C9: logout consults only the session_token cookie. With no cookie (for
example a credential presented solely via the Authorization header) it
deletes nothing and still succeeds; with a non-empty cookie it deletes every
session bearing that token and succeeds even when none match. -/
theorem claim_C9_logout_cookie_only :
    (∀ (db : DB) (hdr : Option String), logout db ⟨none, hdr⟩ = (db, true))
    ∧ (∀ (db : DB) (t : String) (hdr : Option String), ¬ t = "" →
        logout db ⟨some t, hdr⟩ =
          ({ db with user_sessions := db.user_sessions.filter (fun s => !(s.session_token == t)) },
            true)) := by
  constructor
  · intro db hdr
    rfl
  · intro db t hdr ht
    simp [logout, ht]

/-- C9 witness: a header-only logout leaves both sessions in place; a cookie
logout removes exactly the sessions bearing the cookie token. -/
theorem claim_C9_logout_cookie_only_witness :
    logout dbTwoSessW ⟨none, some ("Bearer t1")⟩ = (dbTwoSessW, true)
    ∧ logout dbTwoSessW ⟨some ("t1"), none⟩ =
        ({ dbTwoSessW with
            user_sessions := dbTwoSessW.user_sessions.filter (fun s => !(s.session_token == ("t1"))) },
          true) :=
  ⟨claim_C9_logout_cookie_only.1 dbTwoSessW (some ("Bearer t1")),
    claim_C9_logout_cookie_only.2 dbTwoSessW ("t1") none (by decide)⟩

/-- C10: an authenticated doctor with no profile row toggling availability
gets success with every collection unchanged (the `update_one` matches
nothing), whereas fetching the own profile in the same state yields 404. -/
theorem claim_C10_availability_vs_profile (db : DB) (now : Int) (req : Request) (u : User)
    (b : Bool)
    (hauth : require_doctor db now req = Except.ok u)
    (hnone : ∀ p ∈ db.doctor_profiles, ¬ p.user_id = u.id) :
    update_availability db now req b = (db, Except.ok true)
    ∧ get_doctor_profile db now req = Except.error ⟨404, "Doctor profile not found"⟩ := by
  have hup : updateFirst (fun p => p.user_id == u.id)
      (fun p => { p with available := b }) db.doctor_profiles = db.doctor_profiles := by
    apply updateFirst_no_match
    intro x hx
    simp only [beq_iff_eq]
    exact hnone x hx
  have hf : db.doctor_profiles.find? (fun p => p.user_id == u.id) = none := by
    rw [List.find?_eq_none]
    intro x hx
    simp only [beq_iff_eq]
    exact hnone x hx
  constructor
  · simp [update_availability, hauth, hup]
  · simp [get_doctor_profile, hauth, hf]

/-- C10 witness: a concrete doctor with an empty profile collection. -/
theorem claim_C10_availability_vs_profile_witness :
    update_availability dbNoProfW 5 reqNoProfW false = (dbNoProfW, Except.ok true)
    ∧ get_doctor_profile dbNoProfW 5 reqNoProfW
        = Except.error ⟨404, "Doctor profile not found"⟩ :=
  claim_C10_availability_vs_profile dbNoProfW 5 reqNoProfW uDocNoProfW false rfl (by decide)
